import Mathlib

/-!
Shallow embedding of `source/services/vehicle/lib/anomaly.js` from the
aws-connected-vehicle-solution repository.

The module exposes three operations over two DynamoDB tables:

* `listAnomaliesByVehicle(ticket, vin, cb)`
* `getVehicleAnomaly(ticket, vin, anomalyId, cb)`
* `acknowledgeVehicleAnomaly(ticket, vin, anomalyId, cb)`

Each operation first looks up an ownership record keyed by
`(ticket[cognito:username], vin)` in the owner table; only when that
record is present does it touch the anomaly table.

Embedding choices, all read directly off the source:

* The owner table and the anomaly table are modelled as lists of records;
  a DynamoDB `get` is a `find?` on the key attributes, a `query` by vin is
  a `filter`, and a `put` is a full overwrite of the item with the same
  key (the new item is placed in front, every item with the same key is
  removed), matching DynamoDB point-write semantics.
* Each DynamoDB call can fail; the JS code receives such a failure as the
  `err` argument of its callback.  A `Faults` record is the fault schedule
  of one invocation: for each of the three possible store calls it says
  whether that call fails and with which error object.
* The callback result is either `ok` with data or `err` with the error
  value the code passed to `cb`: the raw store error object on a failed
  store call (`cb(err, null)`), or the constructed structured object
  `\x7berror: \x7bmessage: ...\x7d\x7d` on the authorization / not-found
  branches.
* Every operation additionally reports the final table states and an
  access log counting the reads and writes issued against the anomaly
  table, so that frame conditions ("never touches AnomalyStore") are
  statable.
-/

namespace AnomalyService

/-- Raw error object produced by a failed store call (the `err` argument
DynamoDB hands to the callback). Its content is opaque to the code, which
forwards it verbatim; a message string stands for the whole object. -/
structure JsErr where
  message : String
  deriving DecidableEq, Repr

/-- Value passed as the first (error) callback argument, as built by the
source: either the raw store error forwarded by `cb(err, null)`, or the
structured object `\x7berror: \x7bmessage: ...\x7d\x7d` the code
constructs itself. -/
inductive CbError where
  | storeRaw (e : JsErr)
  | structured (message : String)
  deriving DecidableEq, Repr

/-- Discriminator: is the error value one of the structured
`\x7berror: \x7bmessage: ...\x7d\x7d` objects (as opposed to a raw store
error forwarded verbatim)? -/
def isStructuredErr : CbError → Bool
  | CbError.structured _ => true
  | CbError.storeRaw _ => false

/-- Result of one invocation as seen through the callback: `ok` with the
success payload or `err` with the error value. -/
inductive CallResult (α : Type) where
  | ok (v : α)
  | err (e : CbError)
  deriving DecidableEq, Repr

/-- One item of the owner table: keyed by `(owner_id, vin)`. -/
structure OwnershipRecord where
  owner_id : String
  vin : String
  deriving DecidableEq, Repr

/-- One item of the anomaly table: keyed by `(vin, anomaly_id)`, with the
`acknowledged` flag the acknowledge operation sets and an opaque bag of
further attributes carried through unmodified. -/
structure AnomalyRecord where
  vin : String
  anomaly_id : String
  acknowledged : Bool
  payload : List (String × String)
  deriving DecidableEq, Repr

/-- The two tables the module talks to. -/
structure Stores where
  ownership : List OwnershipRecord
  anomalies : List AnomalyRecord
  deriving DecidableEq, Repr

/-- Fault schedule of one invocation: for each store call the code can
issue, whether that call fails and with which raw error. -/
structure Faults where
  ownerGet : Option JsErr
  anomalyRead : Option JsErr
  anomalyWrite : Option JsErr
  deriving DecidableEq, Repr

/-- The all-succeed fault schedule. -/
def noFaults : Faults := ⟨none, none, none⟩

/-- Count of reads and writes issued against the anomaly table during one
invocation (a failed call counts: the store was accessed). -/
structure AccessLog where
  anomalyReads : Nat
  anomalyWrites : Nat
  deriving DecidableEq, Repr

/-- Full observable outcome of one invocation: callback result, table
states after the call, anomaly-table access log. -/
structure Outcome (α : Type) where
  res : CallResult α
  post : Stores
  log : AccessLog
  deriving Repr

/-- DynamoDB `get` on the owner table: first item whose key attributes
equal `(ownerId, vin)`.  `none` models the empty response `\x7b\x7d` the
code detects with `_.isEmpty(data)`. -/
def ownershipGet (ownerId vin : String) (tbl : List OwnershipRecord) :
    Option OwnershipRecord :=
  tbl.find? (fun r => r.owner_id == ownerId && r.vin == vin)

/-- DynamoDB `get` on the anomaly table by key `(vin, anomalyId)`. -/
def anomalyGet (vin anomalyId : String) (tbl : List AnomalyRecord) :
    Option AnomalyRecord :=
  tbl.find? (fun r => r.vin == vin && r.anomaly_id == anomalyId)

/-- DynamoDB `query` with `KeyConditionExpression vin = :vin`: every item
of the anomaly table whose vin equals `vin`, in store order. -/
def anomalyQuery (vin : String) (tbl : List AnomalyRecord) :
    List AnomalyRecord :=
  tbl.filter (fun r => r.vin == vin)

/-- Do two anomaly items carry the same `(vin, anomaly_id)` key? -/
def sameAnomalyKey (a b : AnomalyRecord) : Bool :=
  a.vin == b.vin && a.anomaly_id == b.anomaly_id

/-- DynamoDB `put` on the anomaly table: full overwrite of the item whose
key attributes equal those of `r`. -/
def anomalyPut (r : AnomalyRecord) (tbl : List AnomalyRecord) :
    List AnomalyRecord :=
  r :: tbl.filter (fun x => !(sameAnomalyKey x r))

/-- Message of the authorization error object built at
`anomaly.js:90-94`, `152-156` and `229-233`. -/
def notRegisteredMsg : String :=
  "The vehicle requested is not registered under the user."

/-- Message of the not-found error object built at `anomaly.js:144-148`
and `221-225`. -/
def noRecordMsg : String :=
  "The anomaly record requested does not exist."

/-- The structured authorization error value. -/
def authorizationError : CbError := CbError.structured notRegisteredMsg

/-- The structured not-found error value. -/
def notFoundError : CbError := CbError.structured noRecordMsg

/-- Embedding of `anomaly.prototype.listAnomaliesByVehicle`
(`anomaly.js:53-98`): get the ownership record; on store error forward it
(`cb(err, null)`); if the response is empty return the authorization
error object; otherwise query the anomaly table by vin, forwarding a
store error and returning the query result on success. -/
def listAnomaliesByVehicle (username vin : String) (f : Faults)
    (s : Stores) : Outcome (List AnomalyRecord) :=
  match f.ownerGet with
  | some e => ⟨CallResult.err (CbError.storeRaw e), s, ⟨0, 0⟩⟩
  | none =>
    match ownershipGet username vin s.ownership with
    | some _ =>
      match f.anomalyRead with
      | some e => ⟨CallResult.err (CbError.storeRaw e), s, ⟨1, 0⟩⟩
      | none => ⟨CallResult.ok (anomalyQuery vin s.anomalies), s, ⟨1, 0⟩⟩
    | none => ⟨CallResult.err authorizationError, s, ⟨0, 0⟩⟩

/-- Embedding of `anomaly.prototype.getVehicleAnomaly`
(`anomaly.js:107-160`): ownership gate as above, then a point `get` by
`(vin, anomalyId)`; empty response yields the not-found error object,
otherwise the item is returned unmodified. -/
def getVehicleAnomaly (username vin anomalyId : String) (f : Faults)
    (s : Stores) : Outcome AnomalyRecord :=
  match f.ownerGet with
  | some e => ⟨CallResult.err (CbError.storeRaw e), s, ⟨0, 0⟩⟩
  | none =>
    match ownershipGet username vin s.ownership with
    | some _ =>
      match f.anomalyRead with
      | some e => ⟨CallResult.err (CbError.storeRaw e), s, ⟨1, 0⟩⟩
      | none =>
        match anomalyGet vin anomalyId s.anomalies with
        | some item => ⟨CallResult.ok item, s, ⟨1, 0⟩⟩
        | none => ⟨CallResult.err notFoundError, s, ⟨1, 0⟩⟩
    | none => ⟨CallResult.err authorizationError, s, ⟨0, 0⟩⟩

/-- Embedding of `anomaly.prototype.acknowledgeVehicleAnomaly`
(`anomaly.js:169-237`): ownership gate, point `get` by
`(vin, anomalyId)`, then `anomaly_data.Item.acknowledged = true` and a
`put` of the whole item; the modified item is returned on success.  A
failed `put` counts as an attempted write but leaves the table as the
store reported failure. -/
def acknowledgeVehicleAnomaly (username vin anomalyId : String)
    (f : Faults) (s : Stores) : Outcome AnomalyRecord :=
  match f.ownerGet with
  | some e => ⟨CallResult.err (CbError.storeRaw e), s, ⟨0, 0⟩⟩
  | none =>
    match ownershipGet username vin s.ownership with
    | some _ =>
      match f.anomalyRead with
      | some e => ⟨CallResult.err (CbError.storeRaw e), s, ⟨1, 0⟩⟩
      | none =>
        match anomalyGet vin anomalyId s.anomalies with
        | some item =>
          match f.anomalyWrite with
          | some e => ⟨CallResult.err (CbError.storeRaw e), s, ⟨1, 1⟩⟩
          | none =>
            ⟨CallResult.ok { item with acknowledged := true },
             ⟨s.ownership,
              anomalyPut { item with acknowledged := true } s.anomalies⟩,
             ⟨1, 1⟩⟩
        | none => ⟨CallResult.err notFoundError, s, ⟨1, 0⟩⟩
    | none => ⟨CallResult.err authorizationError, s, ⟨0, 0⟩⟩

/-- Concrete scenario of spec section 8.6: alice owns VIN123, which has
one unacknowledged anomaly A1. -/
def demoRec : AnomalyRecord := ⟨"VIN123", "A1", false, [("code", "P0171")]⟩

/-- Concrete table states for the scenario of spec section 8.6. -/
def demoStores : Stores := ⟨[⟨"alice", "VIN123"⟩], [demoRec]⟩

theorem find?_filter_eq_of_imp {α : Type} (p q : α → Bool) (l : List α)
    (h : ∀ x, p x = true → q x = true) :
    (l.filter q).find? p = l.find? p := by
  induction l with
  | nil => rfl
  | cons a t ih =>
    by_cases hq : q a = true
    · rw [List.filter_cons_of_pos hq]
      by_cases hp : p a = true
      · rw [List.find?_cons_of_pos _ hp, List.find?_cons_of_pos _ hp]
      · rw [List.find?_cons_of_neg _ hp, List.find?_cons_of_neg _ hp, ih]
    · have hp : ¬ p a = true := fun hpa => hq (h a hpa)
      rw [List.filter_cons_of_neg hq, List.find?_cons_of_neg _ hp, ih]

theorem filter_idem {α : Type} (q : α → Bool) (l : List α) :
    (l.filter q).filter q = l.filter q := by
  induction l with
  | nil => rfl
  | cons a t ih =>
    by_cases hq : q a = true
    · rw [List.filter_cons_of_pos hq, List.filter_cons_of_pos hq, ih]
    · rw [List.filter_cons_of_neg hq, ih]

/-- A successful anomaly `get` returns an item carrying the key it was
looked up under, and that item is in the table. -/
theorem anomalyGet_key {vin aid : String} {tbl : List AnomalyRecord}
    {r : AnomalyRecord} (h : anomalyGet vin aid tbl = some r) :
    r.vin = vin ∧ r.anomaly_id = aid ∧ r ∈ tbl := by
  have hp := List.find?_some h
  have hm := List.mem_of_find?_eq_some h
  simp only [Bool.and_eq_true, beq_iff_eq] at hp
  exact ⟨hp.1, hp.2, hm⟩

/-- After a `put` of `r`, a `get` under the key of `r` returns `r`. -/
theorem anomalyGet_put_self {vin aid : String} (r : AnomalyRecord)
    (tbl : List AnomalyRecord) (hv : r.vin = vin) (ha : r.anomaly_id = aid) :
    anomalyGet vin aid (anomalyPut r tbl) = some r := by
  have hkey : (r.vin == vin && r.anomaly_id == aid) = true := by
    simp [hv, ha]
  unfold anomalyGet anomalyPut
  exact List.find?_cons_of_pos _ hkey

/-- A `put` of `r` leaves the `get` result under every other key
unchanged. -/
theorem anomalyGet_put_other {v a : String} (r : AnomalyRecord)
    (tbl : List AnomalyRecord) (h : ¬(r.vin = v ∧ r.anomaly_id = a)) :
    anomalyGet v a (anomalyPut r tbl) = anomalyGet v a tbl := by
  have hp : ¬ (r.vin == v && r.anomaly_id == a) = true := by
    simpa [Bool.and_eq_true, beq_iff_eq] using h
  have hp' : (r.vin == v && r.anomaly_id == a) = false := eq_false_of_ne_true hp
  unfold anomalyGet anomalyPut
  simp only [List.find?, hp']
  apply find?_filter_eq_of_imp
  intro x hx
  simp only [Bool.and_eq_true, beq_iff_eq] at hx
  have hkeys : ¬ (x.vin = r.vin ∧ x.anomaly_id = r.anomaly_id) := by
    rintro ⟨h1, h2⟩
    exact h ⟨h1.symm.trans hx.1, h2.symm.trans hx.2⟩
  rcases not_and_or.mp hkeys with h1 | h1 <;> simp [sameAnomalyKey, h1]

/-- Overwriting the same item twice is the same as overwriting it once. -/
theorem anomalyPut_idem (r : AnomalyRecord) (tbl : List AnomalyRecord) :
    anomalyPut r (anomalyPut r tbl) = anomalyPut r tbl := by
  have hr : (!(sameAnomalyKey r r)) = false := by
    simp [sameAnomalyKey]
  unfold anomalyPut
  simp only [List.filter, hr]
  exact congrArg (fun t => r :: t) (filter_idem _ _)





/-- Reduction of a fault-free acknowledge call on an authorized vin with
a present anomaly id to its explicit outcome. -/
theorem acknowledge_success_eq (u vin aid : String) (f : Faults)
    (s : Stores) (w : OwnershipRecord) (r : AnomalyRecord)
    (hf1 : f.ownerGet = none) (hf2 : f.anomalyRead = none)
    (hf3 : f.anomalyWrite = none)
    (hw : ownershipGet u vin s.ownership = some w)
    (hr : anomalyGet vin aid s.anomalies = some r) :
    acknowledgeVehicleAnomaly u vin aid f s =
      ⟨CallResult.ok { r with acknowledged := true },
       ⟨s.ownership,
        anomalyPut { r with acknowledged := true } s.anomalies⟩,
       ⟨1, 1⟩⟩ := by
  simp [acknowledgeVehicleAnomaly, hf1, hf2, hf3, hw, hr]

/-- Claim C1: when the ownership table holds no record keyed by the
identity and vin (and the ownership lookup itself succeeds), each of the
three operations returns the authorization error, issues no read or
write against the anomaly table, and leaves both tables unchanged. -/
theorem ownership_gating_all_ops (u vin aid : String) (f : Faults)
    (s : Stores) (hf : f.ownerGet = none)
    (h : ownershipGet u vin s.ownership = none) :
    listAnomaliesByVehicle u vin f s =
      ⟨CallResult.err authorizationError, s, ⟨0, 0⟩⟩ ∧
    getVehicleAnomaly u vin aid f s =
      ⟨CallResult.err authorizationError, s, ⟨0, 0⟩⟩ ∧
    acknowledgeVehicleAnomaly u vin aid f s =
      ⟨CallResult.err authorizationError, s, ⟨0, 0⟩⟩ := by
  refine ⟨?_, ?_, ?_⟩ <;>
    simp [listAnomaliesByVehicle, getVehicleAnomaly,
      acknowledgeVehicleAnomaly, hf, h]

/-- Concrete instantiation of the C1 theorem: bob owns nothing in the
demo stores. -/
theorem ownership_gating_all_ops_witness :
    ((noFaults : Faults).ownerGet = none ∧
      ownershipGet "bob" "VIN123" demoStores.ownership = none) ∧
    (listAnomaliesByVehicle "bob" "VIN123" noFaults demoStores =
        ⟨CallResult.err authorizationError, demoStores, ⟨0, 0⟩⟩ ∧
      getVehicleAnomaly "bob" "VIN123" "A1" noFaults demoStores =
        ⟨CallResult.err authorizationError, demoStores, ⟨0, 0⟩⟩ ∧
      acknowledgeVehicleAnomaly "bob" "VIN123" "A1" noFaults demoStores =
        ⟨CallResult.err authorizationError, demoStores, ⟨0, 0⟩⟩) :=
  ⟨⟨rfl, by decide⟩,
    ownership_gating_all_ops "bob" "VIN123" "A1" noFaults demoStores rfl
      (by decide)⟩

/-- Claim C2: for an authorized caller and a present anomaly id, a
fault-free acknowledge returns the stored record with acknowledged set
to true and every other field at its pre-call value; its only mutation
is the overwrite of that single item: the lookup under every other
anomaly key and the whole ownership table are unchanged. -/
theorem ack_success_frame (u vin aid : String) (f : Faults) (s : Stores)
    (w : OwnershipRecord) (r : AnomalyRecord)
    (hf1 : f.ownerGet = none) (hf2 : f.anomalyRead = none)
    (hf3 : f.anomalyWrite = none)
    (hw : ownershipGet u vin s.ownership = some w)
    (hr : anomalyGet vin aid s.anomalies = some r) :
    (acknowledgeVehicleAnomaly u vin aid f s).res =
      CallResult.ok { r with acknowledged := true } ∧
    (acknowledgeVehicleAnomaly u vin aid f s).post.ownership =
      s.ownership ∧
    anomalyGet vin aid
        (acknowledgeVehicleAnomaly u vin aid f s).post.anomalies =
      some { r with acknowledged := true } ∧
    ∀ v a, ¬(v = vin ∧ a = aid) →
      anomalyGet v a
          (acknowledgeVehicleAnomaly u vin aid f s).post.anomalies =
        anomalyGet v a s.anomalies := by
  obtain ⟨hv, ha, -⟩ := anomalyGet_key hr
  have hred := acknowledge_success_eq u vin aid f s w r hf1 hf2 hf3 hw hr
  rw [hred]
  refine ⟨rfl, rfl, ?_, ?_⟩
  · exact anomalyGet_put_self _ _ hv ha
  · intro v a hne
    apply anomalyGet_put_other
    rintro ⟨h1, h2⟩
    exact hne ⟨h1 ▸ hv, h2 ▸ ha⟩

/-- Concrete instantiation of the C2 theorem on the demo stores. -/
theorem ack_success_frame_witness :
    ((noFaults : Faults).ownerGet = none ∧
      (noFaults : Faults).anomalyRead = none ∧
      (noFaults : Faults).anomalyWrite = none ∧
      ownershipGet "alice" "VIN123" demoStores.ownership =
        some ⟨"alice", "VIN123"⟩ ∧
      anomalyGet "VIN123" "A1" demoStores.anomalies = some demoRec) ∧
    ((acknowledgeVehicleAnomaly "alice" "VIN123" "A1" noFaults
          demoStores).res =
        CallResult.ok { demoRec with acknowledged := true } ∧
      (acknowledgeVehicleAnomaly "alice" "VIN123" "A1" noFaults
          demoStores).post.ownership = demoStores.ownership ∧
      anomalyGet "VIN123" "A1"
          (acknowledgeVehicleAnomaly "alice" "VIN123" "A1" noFaults
            demoStores).post.anomalies =
        some { demoRec with acknowledged := true } ∧
      ∀ v a, ¬(v = "VIN123" ∧ a = "A1") →
        anomalyGet v a
            (acknowledgeVehicleAnomaly "alice" "VIN123" "A1" noFaults
              demoStores).post.anomalies =
          anomalyGet v a demoStores.anomalies) :=
  ⟨⟨rfl, rfl, rfl, by decide, by decide⟩,
    ack_success_frame "alice" "VIN123" "A1" noFaults demoStores
      ⟨"alice", "VIN123"⟩ demoRec rfl rfl rfl (by decide) (by decide)⟩

/-- Claim C3: acknowledging twice in succession yields a record with
acknowledged true both times, with all other fields unchanged from the
pre-acknowledge record, and the table state after the second call equals
the state after the first. -/
theorem ack_idempotent (u vin aid : String) (f : Faults) (s : Stores)
    (w : OwnershipRecord) (r : AnomalyRecord)
    (hf1 : f.ownerGet = none) (hf2 : f.anomalyRead = none)
    (hf3 : f.anomalyWrite = none)
    (hw : ownershipGet u vin s.ownership = some w)
    (hr : anomalyGet vin aid s.anomalies = some r) :
    (acknowledgeVehicleAnomaly u vin aid f s).res =
      CallResult.ok { r with acknowledged := true } ∧
    (acknowledgeVehicleAnomaly u vin aid f
        (acknowledgeVehicleAnomaly u vin aid f s).post).res =
      CallResult.ok { r with acknowledged := true } ∧
    (acknowledgeVehicleAnomaly u vin aid f
        (acknowledgeVehicleAnomaly u vin aid f s).post).post =
      (acknowledgeVehicleAnomaly u vin aid f s).post := by
  obtain ⟨hv, ha, -⟩ := anomalyGet_key hr
  have h1 := acknowledge_success_eq u vin aid f s w r hf1 hf2 hf3 hw hr
  have hw2 : ownershipGet u vin
      (acknowledgeVehicleAnomaly u vin aid f s).post.ownership = some w := by
    rw [h1]; exact hw
  have hr2 : anomalyGet vin aid
      (acknowledgeVehicleAnomaly u vin aid f s).post.anomalies =
      some { r with acknowledged := true } := by
    rw [h1]; exact anomalyGet_put_self _ _ hv ha
  have h2 := acknowledge_success_eq u vin aid f
    (acknowledgeVehicleAnomaly u vin aid f s).post w
    { r with acknowledged := true } hf1 hf2 hf3 hw2 hr2
  refine ⟨by rw [h1], by rw [h2], ?_⟩
  rw [h2, h1]
  show Stores.mk s.ownership
      (anomalyPut { r with acknowledged := true }
        (anomalyPut { r with acknowledged := true } s.anomalies)) =
    Stores.mk s.ownership
      (anomalyPut { r with acknowledged := true } s.anomalies)
  rw [anomalyPut_idem]

/-- Concrete instantiation of the C3 theorem on the demo stores. -/
theorem ack_idempotent_witness :
    ((noFaults : Faults).ownerGet = none ∧
      (noFaults : Faults).anomalyRead = none ∧
      (noFaults : Faults).anomalyWrite = none ∧
      ownershipGet "alice" "VIN123" demoStores.ownership =
        some ⟨"alice", "VIN123"⟩ ∧
      anomalyGet "VIN123" "A1" demoStores.anomalies = some demoRec) ∧
    ((acknowledgeVehicleAnomaly "alice" "VIN123" "A1" noFaults
          demoStores).res =
        CallResult.ok { demoRec with acknowledged := true } ∧
      (acknowledgeVehicleAnomaly "alice" "VIN123" "A1" noFaults
          (acknowledgeVehicleAnomaly "alice" "VIN123" "A1" noFaults
            demoStores).post).res =
        CallResult.ok { demoRec with acknowledged := true } ∧
      (acknowledgeVehicleAnomaly "alice" "VIN123" "A1" noFaults
          (acknowledgeVehicleAnomaly "alice" "VIN123" "A1" noFaults
            demoStores).post).post =
        (acknowledgeVehicleAnomaly "alice" "VIN123" "A1" noFaults
          demoStores).post) :=
  ⟨⟨rfl, rfl, rfl, by decide, by decide⟩,
    ack_idempotent "alice" "VIN123" "A1" noFaults demoStores
      ⟨"alice", "VIN123"⟩ demoRec rfl rfl rfl (by decide) (by decide)⟩

/-- Claim C4: after a successful fault-free acknowledge, a fault-free
get on the resulting state succeeds with a record whose acknowledged
field is true. -/
theorem ack_then_get_acknowledged (u vin aid : String) (f : Faults)
    (s : Stores) (w : OwnershipRecord) (r : AnomalyRecord)
    (hf1 : f.ownerGet = none) (hf2 : f.anomalyRead = none)
    (hf3 : f.anomalyWrite = none)
    (hw : ownershipGet u vin s.ownership = some w)
    (hr : anomalyGet vin aid s.anomalies = some r) :
    (getVehicleAnomaly u vin aid f
        (acknowledgeVehicleAnomaly u vin aid f s).post).res =
      CallResult.ok { r with acknowledged := true } ∧
    ({ r with acknowledged := true } : AnomalyRecord).acknowledged =
      true := by
  obtain ⟨hv, ha, -⟩ := anomalyGet_key hr
  have h1 := acknowledge_success_eq u vin aid f s w r hf1 hf2 hf3 hw hr
  have hw2 : ownershipGet u vin
      (acknowledgeVehicleAnomaly u vin aid f s).post.ownership = some w := by
    rw [h1]; exact hw
  have hr2 : anomalyGet vin aid
      (acknowledgeVehicleAnomaly u vin aid f s).post.anomalies =
      some { r with acknowledged := true } := by
    rw [h1]; exact anomalyGet_put_self _ _ hv ha
  exact ⟨by simp [getVehicleAnomaly, hf1, hf2, hw2, hr2], rfl⟩

/-- Concrete instantiation of the C4 theorem on the demo stores. -/
theorem ack_then_get_acknowledged_witness :
    ((noFaults : Faults).ownerGet = none ∧
      (noFaults : Faults).anomalyRead = none ∧
      (noFaults : Faults).anomalyWrite = none ∧
      ownershipGet "alice" "VIN123" demoStores.ownership =
        some ⟨"alice", "VIN123"⟩ ∧
      anomalyGet "VIN123" "A1" demoStores.anomalies = some demoRec) ∧
    ((getVehicleAnomaly "alice" "VIN123" "A1" noFaults
          (acknowledgeVehicleAnomaly "alice" "VIN123" "A1" noFaults
            demoStores).post).res =
        CallResult.ok { demoRec with acknowledged := true } ∧
      ({ demoRec with acknowledged := true } : AnomalyRecord).acknowledged =
        true) :=
  ⟨⟨rfl, rfl, rfl, by decide, by decide⟩,
    ack_then_get_acknowledged "alice" "VIN123" "A1" noFaults demoStores
      ⟨"alice", "VIN123"⟩ demoRec rfl rfl rfl (by decide) (by decide)⟩

/-- Claim C5: for an authorized caller, a fault-free list returns the
store query result: exactly the anomaly items whose vin equals the
requested vin, in store order, and no item of any other vehicle. -/
theorem list_scoping (u vin : String) (f : Faults) (s : Stores)
    (w : OwnershipRecord)
    (hf1 : f.ownerGet = none) (hf2 : f.anomalyRead = none)
    (hw : ownershipGet u vin s.ownership = some w) :
    (listAnomaliesByVehicle u vin f s).res =
      CallResult.ok (anomalyQuery vin s.anomalies) ∧
    ∀ r : AnomalyRecord,
      r ∈ anomalyQuery vin s.anomalies ↔ r ∈ s.anomalies ∧ r.vin = vin := by
  constructor
  · simp [listAnomaliesByVehicle, hf1, hf2, hw]
  · intro r
    simp [anomalyQuery, List.mem_filter]

/-- Concrete instantiation of the C5 theorem on the demo stores. -/
theorem list_scoping_witness :
    ((noFaults : Faults).ownerGet = none ∧
      (noFaults : Faults).anomalyRead = none ∧
      ownershipGet "alice" "VIN123" demoStores.ownership =
        some ⟨"alice", "VIN123"⟩) ∧
    ((listAnomaliesByVehicle "alice" "VIN123" noFaults demoStores).res =
        CallResult.ok (anomalyQuery "VIN123" demoStores.anomalies) ∧
      ∀ r : AnomalyRecord,
        r ∈ anomalyQuery "VIN123" demoStores.anomalies ↔
          r ∈ demoStores.anomalies ∧ r.vin = "VIN123") :=
  ⟨⟨rfl, rfl, by decide⟩,
    list_scoping "alice" "VIN123" noFaults demoStores
      ⟨"alice", "VIN123"⟩ rfl rfl (by decide)⟩

/-- Claim C6: for an authorized caller, a fault-free get returns the
not-found error when no item exists under the key, the item unmodified
when one does, and the not-found error value is distinct from the
authorization error value. -/
theorem get_not_found_distinct (u vin aid : String) (f : Faults)
    (s : Stores) (w : OwnershipRecord)
    (hf1 : f.ownerGet = none) (hf2 : f.anomalyRead = none)
    (hw : ownershipGet u vin s.ownership = some w) :
    (anomalyGet vin aid s.anomalies = none →
      (getVehicleAnomaly u vin aid f s).res =
        CallResult.err notFoundError) ∧
    (∀ r, anomalyGet vin aid s.anomalies = some r →
      (getVehicleAnomaly u vin aid f s).res = CallResult.ok r) ∧
    notFoundError ≠ authorizationError := by
  refine ⟨?_, ?_, by decide⟩
  · intro hn
    simp [getVehicleAnomaly, hf1, hf2, hw, hn]
  · intro r hr
    simp [getVehicleAnomaly, hf1, hf2, hw, hr]

/-- Concrete instantiation of the C6 theorem: A2 does not exist under
VIN123 in the demo stores. -/
theorem get_not_found_distinct_witness :
    ((noFaults : Faults).ownerGet = none ∧
      (noFaults : Faults).anomalyRead = none ∧
      ownershipGet "alice" "VIN123" demoStores.ownership =
        some ⟨"alice", "VIN123"⟩ ∧
      anomalyGet "VIN123" "A2" demoStores.anomalies = none) ∧
    ((getVehicleAnomaly "alice" "VIN123" "A2" noFaults demoStores).res =
        CallResult.err notFoundError ∧
      notFoundError ≠ authorizationError) :=
  ⟨⟨rfl, rfl, by decide, by decide⟩,
    ⟨(get_not_found_distinct "alice" "VIN123" "A2" noFaults demoStores
        ⟨"alice", "VIN123"⟩ rfl rfl (by decide)).1 (by decide),
      (get_not_found_distinct "alice" "VIN123" "A2" noFaults demoStores
        ⟨"alice", "VIN123"⟩ rfl rfl (by decide)).2.2⟩⟩

/-- Claim C7: every operation short-circuits on the first error: a
failed ownership lookup is returned at once with no anomaly-table
access and unchanged tables, and a failed anomaly read inside
acknowledge means no write is ever attempted and the tables are
unchanged. -/
theorem short_circuit_first_error (u vin aid : String) (f : Faults)
    (s : Stores) :
    (∀ e, f.ownerGet = some e →
      listAnomaliesByVehicle u vin f s =
        ⟨CallResult.err (CbError.storeRaw e), s, ⟨0, 0⟩⟩ ∧
      getVehicleAnomaly u vin aid f s =
        ⟨CallResult.err (CbError.storeRaw e), s, ⟨0, 0⟩⟩ ∧
      acknowledgeVehicleAnomaly u vin aid f s =
        ⟨CallResult.err (CbError.storeRaw e), s, ⟨0, 0⟩⟩) ∧
    (∀ e, f.anomalyRead = some e →
      (acknowledgeVehicleAnomaly u vin aid f s).log.anomalyWrites = 0 ∧
      (acknowledgeVehicleAnomaly u vin aid f s).post = s) := by
  constructor
  · intro e he
    refine ⟨?_, ?_, ?_⟩ <;>
      simp [listAnomaliesByVehicle, getVehicleAnomaly,
        acknowledgeVehicleAnomaly, he]
  · intro e he
    cases hf : f.ownerGet with
    | some e0 =>
      exact ⟨by simp [acknowledgeVehicleAnomaly, hf],
        by simp [acknowledgeVehicleAnomaly, hf]⟩
    | none =>
      cases hw : ownershipGet u vin s.ownership with
      | some w0 =>
        exact ⟨by simp [acknowledgeVehicleAnomaly, hf, hw, he],
          by simp [acknowledgeVehicleAnomaly, hf, hw, he]⟩
      | none =>
        exact ⟨by simp [acknowledgeVehicleAnomaly, hf, hw],
          by simp [acknowledgeVehicleAnomaly, hf, hw]⟩

/-- Concrete instantiation of the C7 theorem: a failing ownership lookup
and a failing anomaly read. -/
theorem short_circuit_first_error_witness :
    (Faults.ownerGet ⟨some ⟨"boom"⟩, none, none⟩ = some ⟨"boom"⟩ ∧
      Faults.anomalyRead ⟨none, some ⟨"crash"⟩, none⟩ = some ⟨"crash"⟩) ∧
    (listAnomaliesByVehicle "alice" "VIN123" ⟨some ⟨"boom"⟩, none, none⟩
        demoStores =
      ⟨CallResult.err (CbError.storeRaw ⟨"boom"⟩), demoStores, ⟨0, 0⟩⟩) ∧
    ((acknowledgeVehicleAnomaly "alice" "VIN123" "A1"
          ⟨none, some ⟨"crash"⟩, none⟩ demoStores).log.anomalyWrites = 0 ∧
      (acknowledgeVehicleAnomaly "alice" "VIN123" "A1"
          ⟨none, some ⟨"crash"⟩, none⟩ demoStores).post = demoStores) :=
  ⟨⟨rfl, rfl⟩,
    ((short_circuit_first_error "alice" "VIN123" "A1"
        ⟨some ⟨"boom"⟩, none, none⟩ demoStores).1 ⟨"boom"⟩ rfl).1,
    (short_circuit_first_error "alice" "VIN123" "A1"
        ⟨none, some ⟨"crash"⟩, none⟩ demoStores).2 ⟨"crash"⟩ rfl⟩

/-- Claim C9: list and get are read-only: on every input, every fault
schedule and every starting state, both tables equal their pre-call
value on every outcome. -/
theorem readonly_list_get (u vin aid : String) (f : Faults)
    (s : Stores) :
    (listAnomaliesByVehicle u vin f s).post = s ∧
    (getVehicleAnomaly u vin aid f s).post = s := by
  constructor
  · cases hf : f.ownerGet with
    | some e => simp [listAnomaliesByVehicle, hf]
    | none =>
      cases hw : ownershipGet u vin s.ownership with
      | some w =>
        cases hr : f.anomalyRead with
        | some e => simp [listAnomaliesByVehicle, hf, hw, hr]
        | none => simp [listAnomaliesByVehicle, hf, hw, hr]
      | none => simp [listAnomaliesByVehicle, hf, hw]
  · cases hf : f.ownerGet with
    | some e => simp [getVehicleAnomaly, hf]
    | none =>
      cases hw : ownershipGet u vin s.ownership with
      | some w =>
        cases hr : f.anomalyRead with
        | some e => simp [getVehicleAnomaly, hf, hw, hr]
        | none =>
          cases ha : anomalyGet vin aid s.anomalies with
          | some item => simp [getVehicleAnomaly, hf, hw, hr, ha]
          | none => simp [getVehicleAnomaly, hf, hw, hr, ha]
      | none => simp [getVehicleAnomaly, hf, hw]

/-- Claim C10: acknowledge is atomic on failure: whenever it returns an
error, both tables are unchanged; and a write is attempted only after
the ownership lookup and the anomaly read have both succeeded with the
ownership record and the anomaly item present. -/
theorem ack_error_atomicity (u vin aid : String) (f : Faults)
    (s : Stores) :
    (∀ e, (acknowledgeVehicleAnomaly u vin aid f s).res =
        CallResult.err e →
      (acknowledgeVehicleAnomaly u vin aid f s).post = s) ∧
    ((acknowledgeVehicleAnomaly u vin aid f s).log.anomalyWrites ≥ 1 →
      f.ownerGet = none ∧ f.anomalyRead = none ∧
      (∃ w, ownershipGet u vin s.ownership = some w) ∧
      (∃ r, anomalyGet vin aid s.anomalies = some r)) := by
  cases hf : f.ownerGet with
  | some e0 =>
    constructor
    · intro e he; simp [acknowledgeVehicleAnomaly, hf]
    · intro hgw; simp [acknowledgeVehicleAnomaly, hf] at hgw
  | none =>
    cases hw : ownershipGet u vin s.ownership with
    | none =>
      constructor
      · intro e he; simp [acknowledgeVehicleAnomaly, hf, hw]
      · intro hgw; simp [acknowledgeVehicleAnomaly, hf, hw] at hgw
    | some w0 =>
      cases hr : f.anomalyRead with
      | some e1 =>
        constructor
        · intro e he; simp [acknowledgeVehicleAnomaly, hf, hw, hr]
        · intro hgw
          simp [acknowledgeVehicleAnomaly, hf, hw, hr] at hgw
      | none =>
        cases ha : anomalyGet vin aid s.anomalies with
        | none =>
          constructor
          · intro e he; simp [acknowledgeVehicleAnomaly, hf, hw, hr, ha]
          · intro hgw
            simp [acknowledgeVehicleAnomaly, hf, hw, hr, ha] at hgw
        | some item =>
          cases hwr : f.anomalyWrite with
          | some e2 =>
            constructor
            · intro e he
              simp [acknowledgeVehicleAnomaly, hf, hw, hr, ha, hwr]
            · intro _; exact ⟨rfl, rfl, ⟨w0, rfl⟩, ⟨item, rfl⟩⟩
          | none =>
            constructor
            · intro e he
              simp [acknowledgeVehicleAnomaly, hf, hw, hr, ha, hwr] at he
            · intro _; exact ⟨rfl, rfl, ⟨w0, rfl⟩, ⟨item, rfl⟩⟩

/-- Concrete instantiation of the C10 theorem: an unauthorized
acknowledge errors and leaves the demo stores unchanged. -/
theorem ack_error_atomicity_witness :
    (acknowledgeVehicleAnomaly "bob" "VIN123" "A1" noFaults
        demoStores).res = CallResult.err authorizationError ∧
    (acknowledgeVehicleAnomaly "bob" "VIN123" "A1" noFaults
        demoStores).post = demoStores :=
  ⟨by decide,
    (ack_error_atomicity "bob" "VIN123" "A1" noFaults demoStores).1
      authorizationError (by decide)⟩

/-- Claim C8 counterexample: when the ownership lookup fails, the code
passes the raw store error object itself to the callback, which is not
one of the structured error values, refuting the claim that every error
returned is a structured value. -/
theorem raw_error_counterexample :
    (listAnomaliesByVehicle "alice" "VIN123" ⟨some ⟨"boom"⟩, none, none⟩
        demoStores).res = CallResult.err (CbError.storeRaw ⟨"boom"⟩) ∧
    isStructuredErr (CbError.storeRaw ⟨"boom"⟩) = false :=
  ⟨rfl, rfl⟩

/-- Claim C8 (amended): every error any of the three operations hands to
its caller is either one of the two structured error objects the code
builds, each carrying a human-readable message, or the raw error of the
store call that failed, forwarded verbatim. -/
theorem error_shapes_amended (u vin aid : String) (f : Faults)
    (s : Stores) (e : CbError)
    (h : (listAnomaliesByVehicle u vin f s).res = CallResult.err e ∨
      (getVehicleAnomaly u vin aid f s).res = CallResult.err e ∨
      (acknowledgeVehicleAnomaly u vin aid f s).res =
        CallResult.err e) :
    e = authorizationError ∨ e = notFoundError ∨
    ∃ raw, e = CbError.storeRaw raw ∧
      (f.ownerGet = some raw ∨ f.anomalyRead = some raw ∨
        f.anomalyWrite = some raw) := by
  rcases h with h | h | h
  · cases hf : f.ownerGet with
    | some e0 =>
      simp [listAnomaliesByVehicle, hf] at h
      exact Or.inr (Or.inr ⟨e0, h.symm, Or.inl rfl⟩)
    | none =>
      cases hw : ownershipGet u vin s.ownership with
      | none =>
        simp [listAnomaliesByVehicle, hf, hw] at h
        exact Or.inl h.symm
      | some w0 =>
        cases hr : f.anomalyRead with
        | some e1 =>
          simp [listAnomaliesByVehicle, hf, hw, hr] at h
          exact Or.inr (Or.inr ⟨e1, h.symm, Or.inr (Or.inl rfl)⟩)
        | none => simp [listAnomaliesByVehicle, hf, hw, hr] at h
  · cases hf : f.ownerGet with
    | some e0 =>
      simp [getVehicleAnomaly, hf] at h
      exact Or.inr (Or.inr ⟨e0, h.symm, Or.inl rfl⟩)
    | none =>
      cases hw : ownershipGet u vin s.ownership with
      | none =>
        simp [getVehicleAnomaly, hf, hw] at h
        exact Or.inl h.symm
      | some w0 =>
        cases hr : f.anomalyRead with
        | some e1 =>
          simp [getVehicleAnomaly, hf, hw, hr] at h
          exact Or.inr (Or.inr ⟨e1, h.symm, Or.inr (Or.inl rfl)⟩)
        | none =>
          cases ha : anomalyGet vin aid s.anomalies with
          | some item => simp [getVehicleAnomaly, hf, hw, hr, ha] at h
          | none =>
            simp [getVehicleAnomaly, hf, hw, hr, ha] at h
            exact Or.inr (Or.inl h.symm)
  · cases hf : f.ownerGet with
    | some e0 =>
      simp [acknowledgeVehicleAnomaly, hf] at h
      exact Or.inr (Or.inr ⟨e0, h.symm, Or.inl rfl⟩)
    | none =>
      cases hw : ownershipGet u vin s.ownership with
      | none =>
        simp [acknowledgeVehicleAnomaly, hf, hw] at h
        exact Or.inl h.symm
      | some w0 =>
        cases hr : f.anomalyRead with
        | some e1 =>
          simp [acknowledgeVehicleAnomaly, hf, hw, hr] at h
          exact Or.inr (Or.inr ⟨e1, h.symm, Or.inr (Or.inl rfl)⟩)
        | none =>
          cases ha : anomalyGet vin aid s.anomalies with
          | none =>
            simp [acknowledgeVehicleAnomaly, hf, hw, hr, ha] at h
            exact Or.inr (Or.inl h.symm)
          | some item =>
            cases hwr : f.anomalyWrite with
            | some e2 =>
              simp [acknowledgeVehicleAnomaly, hf, hw, hr, ha, hwr] at h
              exact Or.inr (Or.inr ⟨e2, h.symm, Or.inr (Or.inr rfl)⟩)
            | none =>
              simp [acknowledgeVehicleAnomaly, hf, hw, hr, ha, hwr] at h

/-- Concrete instantiation of the amended C8 theorem: the authorization
error returned to bob is one of the structured error objects. -/
theorem error_shapes_amended_witness :
    ((listAnomaliesByVehicle "bob" "VIN123" noFaults demoStores).res =
        CallResult.err authorizationError ∨
      (getVehicleAnomaly "bob" "VIN123" "A1" noFaults demoStores).res =
        CallResult.err authorizationError ∨
      (acknowledgeVehicleAnomaly "bob" "VIN123" "A1" noFaults
          demoStores).res = CallResult.err authorizationError) ∧
    (authorizationError = authorizationError ∨
      authorizationError = notFoundError ∨
      ∃ raw, authorizationError = CbError.storeRaw raw ∧
        ((noFaults : Faults).ownerGet = some raw ∨
          (noFaults : Faults).anomalyRead = some raw ∨
          (noFaults : Faults).anomalyWrite = some raw)) :=
  ⟨Or.inl (by decide),
    error_shapes_amended "bob" "VIN123" "A1" noFaults demoStores
      authorizationError (Or.inl (by decide))⟩

end AnomalyService
